import Mathlib

/-!
Verification of the free-tier usage tracking core of the FinOps dashboard.

The development shallowly embeds the decision logic of `src/database.py`
(DatabaseManager) and `src/alerts.py` (FreeTierAlertManager).  Python floats
are read as exact rationals; Python `None` becomes `Option.none`; a raised
Python exception becomes `Except.error`.  The SQLite tables are modelled as
key-indexed maps; an `INSERT OR REPLACE` becomes a pointwise function update
on the map, and a NOT NULL constraint violation becomes an `Except.error`
(the sqlite3 connection context manager rolls the transaction back on an
exception, so an error result carries no partial state).
-/

namespace FinOps

/-- Python float division `a / b`: raises ZeroDivisionError when the divisor
is zero, otherwise produces the exact quotient. -/
def pydiv (a b : ℚ) : Except String ℚ :=
  if b = 0 then Except.error "ZeroDivisionError: float division by zero"
  else Except.ok (a / b)

/-- Rounding half to even to the nearest integer, the tie rule used by the
builtin Python round function. -/
def roundHalfEven (x : ℚ) : ℤ :=
  if x - ⌊x⌋ < 1/2 then ⌊x⌋
  else if 1/2 < x - ⌊x⌋ then ⌊x⌋ + 1
  else if ⌊x⌋ % 2 = 0 then ⌊x⌋ else ⌊x⌋ + 1

/-- Python round(x, 2): round half to even at two decimal places. -/
def round2 (q : ℚ) : ℚ := (roundHalfEven (q * 100) : ℚ) / 100

/-- Python format specifier .1f: the value printed to one decimal place. -/
def fmt1 (q : ℚ) : String :=
  let k := (roundHalfEven (|q| * 10)).toNat
  (if q < 0 ∧ k ≠ 0 then "-" else "") ++ toString (k / 10) ++ "." ++ toString (k % 10)

/-- Python int() applied to a float: truncation toward zero. -/
def pytrunc (q : ℚ) : ℤ := if 0 ≤ q then ⌊q⌋ else ⌈q⌉

/-- Python truthiness of a nullable SQL REAL value: NULL (None) and 0.0 are
falsy, every other number is truthy. -/
def truthyQ : Option ℚ → Bool
  | none => false
  | some q => !(q = 0 : Bool)

/-- One row of the GROUP BY aggregate computed in
DatabaseManager.check_free_tier_usage (database.py lines 188-202). -/
structure AggRow where
  service : String
  usage_type : String
  total_usage : ℚ
  usage_unit : String
  free_tier_limit : Option ℚ
  limit_unit : String
  avg_cost : ℚ
  days_tracked : ℕ
deriving DecidableEq

/-- Value of the remaining key of a status row: a number, or the string
sentinel unlimited (database.py lines 210 and 223). -/
inductive Remaining where
  | value (q : ℚ)
  | unlimited
deriving DecidableEq

/-- The enriched row dict returned by check_free_tier_usage for one
aggregated row.  usage_percentage is Option-valued because a Python dict
entry can hold None; the code in fact always stores a number there. -/
structure StatusRow where
  service : String
  usage_type : String
  total_usage : ℚ
  usage_unit : String
  free_tier_limit : Option ℚ
  limit_unit : String
  avg_cost : ℚ
  days_tracked : ℕ
  usage_percentage : Option ℚ
  remaining : Remaining
  alert_level : String
deriving DecidableEq

/-- The per-row classification step of DatabaseManager.check_free_tier_usage
(database.py lines 205-226).  The stored usage_percentage is rounded to two
decimals (line 209) while the alert level is decided on the unrounded
percentage (lines 213-220).  The truthiness test on line 207 sends a NULL or
zero limit to the unknown branch, so the division on line 208 only runs with
a nonzero divisor. -/
def classifyRow (r : AggRow) : Except String StatusRow :=
  if truthyQ r.free_tier_limit then do
    let l := r.free_tier_limit.getD 0
    let q ← pydiv r.total_usage l
    let pct := q * 100
    Except.ok
      { service := r.service
        usage_type := r.usage_type
        total_usage := r.total_usage
        usage_unit := r.usage_unit
        free_tier_limit := r.free_tier_limit
        limit_unit := r.limit_unit
        avg_cost := r.avg_cost
        days_tracked := r.days_tracked
        usage_percentage := some (round2 pct)
        remaining := Remaining.value (max 0 (l - r.total_usage))
        alert_level :=
          if 90 ≤ pct then "critical"
          else if 75 ≤ pct then "warning"
          else if 50 ≤ pct then "info"
          else "ok" }
  else
    Except.ok
      { service := r.service
        usage_type := r.usage_type
        total_usage := r.total_usage
        usage_unit := r.usage_unit
        free_tier_limit := r.free_tier_limit
        limit_unit := r.limit_unit
        avg_cost := r.avg_cost
        days_tracked := r.days_tracked
        usage_percentage := some 0
        remaining := Remaining.unlimited
        alert_level := "unknown" }

/-- Projection of the classification onto the alert level. -/
def levelOf (r : AggRow) : Except String String :=
  (classifyRow r).map (fun s => s.alert_level)

/-- Identity key of a usage row: UNIQUE(date, service, usage_type)
(database.py line 42). -/
abbrev LedgerKey := String × String × String

/-- The stored non-key columns of one aws_free_tier_usage row (the
autoincrement id and created_at timestamp are not part of the logical
state). -/
structure StoredUsage where
  usage_amount : ℚ
  usage_unit : String
  free_tier_limit : Option ℚ
  limit_unit : String
  cost : ℚ
  is_free_tier : Bool
deriving DecidableEq

/-- Logical state of the aws_free_tier_usage table: a map from identity key
to the stored row, none when no row with that key exists. -/
def Ledger : Type := LedgerKey → Option StoredUsage

/-- The ledger with no rows. -/
def emptyLedger : Ledger := fun _ => none

/-- One row of the free_tier_limits reference table, UNIQUE(service,
usage_type) (database.py lines 47-58). -/
structure LimitDef where
  service : String
  usage_type : String
  monthly_limit : ℚ
  unit : String
deriving DecidableEq

/-- The free_tier_limits table as a list of rows. -/
abbrev Registry := List LimitDef

/-- The SELECT on free_tier_limits by service and usage_type
(database.py lines 144-147). -/
def lookupLimit (reg : Registry) (s ut : String) : Option LimitDef :=
  reg.find? (fun d => d.service == s && d.usage_type == ut)

/-- An input usage record, a Python dict read with .get: every field may be
absent (database.py lines 160-167). -/
structure UsageRecord where
  date : Option String
  service : Option String
  usage_type : Option String
  usage_amount : Option ℚ
  usage_unit : Option String
  cost : Option ℚ
deriving DecidableEq

/-- The stored row built for one input record inside the insert loop of
DatabaseManager.insert_usage_data (database.py lines 143-169): the
free-tier limit and its unit are resolved from the limits table (lines
144-151), usage_amount and cost default to 0.0 when absent (lines 163 and
167), usage_unit defaults to the empty string (line 164), and is_free_tier
is the cost-is-zero test of line 168. -/
def storedOf (reg : Registry) (r : UsageRecord) (s ut : String) : StoredUsage :=
  { usage_amount := r.usage_amount.getD 0
    usage_unit := r.usage_unit.getD ""
    free_tier_limit := (lookupLimit reg s ut).map (fun x => x.monthly_limit)
    limit_unit :=
      match lookupLimit reg s ut with
      | some x => x.unit
      | none => r.usage_unit.getD ""
    cost := r.cost.getD 0
    is_free_tier := decide (r.cost.getD 0 = 0) }

/-- One iteration of the insert loop of DatabaseManager.insert_usage_data
(database.py lines 142-169): resolve the free-tier limit for the record,
then INSERT OR REPLACE by identity key.  A record with a missing date,
service or usage_type inserts NULL into a NOT NULL column, which raises
sqlite3.IntegrityError. -/
def insertOne (reg : Registry) (st : Ledger) (r : UsageRecord) :
    Except String Ledger :=
  match r.date, r.service, r.usage_type with
  | some d, some s, some ut =>
    Except.ok (fun k =>
      if k = (d, s, ut) then some (storedOf reg r s ut) else st k)
  | _, _, _ =>
    Except.error "IntegrityError: NOT NULL constraint failed: aws_free_tier_usage"

/-- DatabaseManager.insert_usage_data (database.py lines 139-172): insert
each record in order inside one transaction.  An exception aborts the loop
and the connection context manager rolls the transaction back, so an error
result leaves the durable state unchanged (the error value carries no
state). -/
def insert_usage_data (reg : Registry) (records : List UsageRecord)
    (st : Ledger) : Except String Ledger :=
  records.foldlM (insertOne reg) st

/-- One row of the free_tier_alerts table as inserted by
DatabaseManager.create_free_tier_alert (database.py lines 244-255). -/
structure StoredAlert where
  service : String
  usage_type : String
  current_usage : ℚ
  limit_value : ℚ
  usage_percentage : ℚ
  alert_level : String
  message : String
  date : String
deriving DecidableEq

/-- DatabaseManager.create_free_tier_alert (database.py lines 230-255):
recompute the usage percentage, return without inserting when it is below
75, otherwise insert one alert row whose message embeds the service, the
usage type and the percentage formatted to one decimal place.  The division
on line 233 is unguarded. -/
def create_free_tier_alert (today service usage_type : String)
    (current_usage limit_value : ℚ) : Except String (Option StoredAlert) := do
  let q ← pydiv current_usage limit_value
  let pct := q * 100
  if 90 ≤ pct then
    Except.ok (some
      { service := service
        usage_type := usage_type
        current_usage := current_usage
        limit_value := limit_value
        usage_percentage := pct
        alert_level := "critical"
        message := "CRITICAL: " ++ service ++ " " ++ usage_type ++
          " usage at " ++ fmt1 pct ++ "% of free tier limit"
        date := today })
  else if 75 ≤ pct then
    Except.ok (some
      { service := service
        usage_type := usage_type
        current_usage := current_usage
        limit_value := limit_value
        usage_percentage := pct
        alert_level := "warning"
        message := "WARNING: " ++ service ++ " " ++ usage_type ++
          " usage at " ++ fmt1 pct ++ "% of free tier limit"
        date := today })
  else
    Except.ok none

/-- The per-status-row step of FreeTierAlertManager.check_free_tier_alerts
(alerts.py lines 43-68) composed with the persistence performed inside
FreeTierAlertManager._create_alert (alerts.py lines 101-104): the result is
the alert row persisted for this status row, if any.  The thresholds 90 and
75 come from the alert_thresholds table (alerts.py lines 21-25) and are
compared against the rounded usage_percentage stored on the status row;
both branches delegate to create_free_tier_alert, which re-derives the
percentage from the raw numbers. -/
def check_alert_row (today : String) (s : StatusRow) :
    Except String (Option StoredAlert) :=
  if truthyQ s.free_tier_limit then
    let pct := s.usage_percentage.getD 0
    if 90 ≤ pct then
      create_free_tier_alert today s.service s.usage_type s.total_usage
        (s.free_tier_limit.getD 0)
    else if 75 ≤ pct then
      create_free_tier_alert today s.service s.usage_type s.total_usage
        (s.free_tier_limit.getD 0)
    else Except.ok none
  else Except.ok none

/-- Classification followed by alert generation for one aggregated row:
check_free_tier_usage feeding check_free_tier_alerts. -/
def alert_pipeline_row (today : String) (r : AggRow) :
    Except String (Option StoredAlert) := do
  let s ← classifyRow r
  check_alert_row today s

/-- The aggregate row read by predict_free_tier_breach from the ledger
(alerts.py lines 266-283). -/
structure PredRow where
  month_to_date_usage : ℚ
  free_tier_limit : Option ℚ
  usage_unit : String
deriving DecidableEq

/-- The prediction dict returned by predict_free_tier_breach (alerts.py
lines 293-304).  projected_breach_day is the day of month of the computed
breach date. -/
structure BreachPrediction where
  service : String
  usage_type : String
  current_usage : ℚ
  projected_usage : ℚ
  limit : ℚ
  unit : String
  daily_average : ℚ
  days_to_breach : ℤ
  projected_breach_day : ℤ
  confidence : String
deriving DecidableEq

/-- FreeTierAlertManager.predict_free_tier_breach (alerts.py lines
250-306), parameterized by the aggregate row found for (service,
usage_type) and by the current day of month.  The period length is the
hard-coded constant days_in_month = 31 (line 263).  Both rows absent and a
falsy (NULL or zero) limit return None (line 278).  days_to_breach uses the
Python int() truncation, not a ceiling (line 290), and the breach day is
clamped with min(days_in_month, current_day + days_to_breach) (line 291).
When the projection does not exceed the limit the function falls through
and returns None (line 306). -/
def predict_free_tier_breach (service usage_type : String)
    (row : Option PredRow) (current_day : ℕ) :
    Except String (Option BreachPrediction) :=
  match row with
  | none => Except.ok none
  | some r =>
    if truthyQ r.free_tier_limit then do
      let lim := r.free_tier_limit.getD 0
      let daily ← pydiv r.month_to_date_usage current_day
      let projected := daily * 31
      if lim < projected then do
        let q ← pydiv (lim - r.month_to_date_usage) daily
        let dtb := max 1 (pytrunc q)
        Except.ok (some
          { service := service
            usage_type := usage_type
            current_usage := r.month_to_date_usage
            projected_usage := projected
            limit := lim
            unit := r.usage_unit
            daily_average := daily
            days_to_breach := dtb
            projected_breach_day := min 31 ((current_day : ℤ) + dtb)
            confidence := if 7 ≤ current_day then "medium" else "low" })
      else Except.ok none
    else Except.ok none

/-- A sample aggregated row over the EC2 t2.micro quota, with the given
total usage and limit. -/
def mkAggRow (u : ℚ) (l : Option ℚ) : AggRow :=
  { service := "Amazon Elastic Compute Cloud - Compute"
    usage_type := "t2.micro"
    total_usage := u
    usage_unit := "hours"
    free_tier_limit := l
    limit_unit := "hours"
    avg_cost := 0
    days_tracked := 1 }

/-- A one-row limits registry: the EC2 t2.micro quota of 750 hours
(database.py line 100). -/
def sampleReg : Registry :=
  [{ service := "Amazon Elastic Compute Cloud - Compute"
     usage_type := "t2.micro"
     monthly_limit := 750
     unit := "hours" }]

/-- A well-formed sample usage record. -/
def recA : UsageRecord :=
  { date := some "2024-01-15"
    service := some "Amazon Elastic Compute Cloud - Compute"
    usage_type := some "t2.micro"
    usage_amount := some 24
    usage_unit := some "hours"
    cost := some 0 }

/-- The same identity key as recA with a different amount. -/
def recA2 : UsageRecord :=
  { date := some "2024-01-15"
    service := some "Amazon Elastic Compute Cloud - Compute"
    usage_type := some "t2.micro"
    usage_amount := some 30
    usage_unit := some "hours"
    cost := some 0 }

/-- A record with a missing usage_amount field. -/
def recNoAmount : UsageRecord :=
  { date := some "2024-01-16"
    service := some "Amazon Simple Queue Service"
    usage_type := some "Requests"
    usage_amount := none
    usage_unit := some "requests"
    cost := some 0 }

/-- A record with a missing date field. -/
def recNoDate : UsageRecord :=
  { date := none
    service := some "AWS Lambda"
    usage_type := some "Requests"
    usage_amount := some 5
    usage_unit := some "requests"
    cost := some 0 }

/-- The ledger state after inserting recA into the empty ledger. -/
def sampleSt1 : Ledger := fun k =>
  if k = ("2024-01-15", "Amazon Elastic Compute Cloud - Compute", "t2.micro")
  then some (storedOf sampleReg recA
    "Amazon Elastic Compute Cloud - Compute" "t2.micro")
  else emptyLedger k

/-! Helper lemmas shared by the claim theorems. -/

theorem truthyQ_eq_true {x : Option ℚ} :
    truthyQ x = true ↔ ∃ l, x = some l ∧ l ≠ 0 := by
  cases x <;> simp [truthyQ]

theorem exc_bind_ok {α β : Type} (a : α) (f : α → Except String β) :
    (Except.ok a >>= f) = f a := rfl

theorem exc_bind_error {α β : Type} (e : String) (f : α → Except String β) :
    ((Except.error e : Except String α) >>= f) = Except.error e := rfl

theorem exc_pure {α : Type} (a : α) :
    (pure a : Except String α) = Except.ok a := rfl

theorem classifyRow_some {r : AggRow} {l : ℚ} (h : r.free_tier_limit = some l)
    (h0 : l ≠ 0) :
    classifyRow r = Except.ok
      { service := r.service
        usage_type := r.usage_type
        total_usage := r.total_usage
        usage_unit := r.usage_unit
        free_tier_limit := r.free_tier_limit
        limit_unit := r.limit_unit
        avg_cost := r.avg_cost
        days_tracked := r.days_tracked
        usage_percentage := some (round2 (r.total_usage / l * 100))
        remaining := Remaining.value (max 0 (l - r.total_usage))
        alert_level :=
          if 90 ≤ r.total_usage / l * 100 then "critical"
          else if 75 ≤ r.total_usage / l * 100 then "warning"
          else if 50 ≤ r.total_usage / l * 100 then "info"
          else "ok" } := by
  simp [classifyRow, truthyQ, h, h0, pydiv, Bind.bind, Except.bind]

theorem classifyRow_falsy {r : AggRow} (h : truthyQ r.free_tier_limit = false) :
    classifyRow r = Except.ok
      { service := r.service
        usage_type := r.usage_type
        total_usage := r.total_usage
        usage_unit := r.usage_unit
        free_tier_limit := r.free_tier_limit
        limit_unit := r.limit_unit
        avg_cost := r.avg_cost
        days_tracked := r.days_tracked
        usage_percentage := some 0
        remaining := Remaining.unlimited
        alert_level := "unknown" } := by
  simp [classifyRow, h]

theorem floor_le_roundHalfEven (x : ℚ) : ⌊x⌋ ≤ roundHalfEven x := by
  unfold roundHalfEven
  split_ifs <;> omega

theorem le_round2 {n : ℤ} {q : ℚ} (h : (n : ℚ) ≤ q) : (n : ℚ) ≤ round2 q := by
  have h1 : (100 * n : ℤ) ≤ ⌊q * 100⌋ := by
    rw [Int.le_floor]
    push_cast
    linarith
  have h2 : (100 * n : ℤ) ≤ roundHalfEven (q * 100) :=
    le_trans h1 (floor_le_roundHalfEven _)
  rw [round2, le_div_iff₀ (by norm_num : (0:ℚ) < 100)]
  calc ((n : ℚ)) * 100 = ((100 * n : ℤ) : ℚ) := by push_cast; ring
    _ ≤ ((roundHalfEven (q * 100) : ℤ) : ℚ) := by exact_mod_cast h2

theorem roundHalfEven_of_floor {x : ℚ} {n : ℤ} (hn : ⌊x⌋ = n)
    (h : x - n < 1/2) : roundHalfEven x = n := by
  unfold roundHalfEven
  rw [hn, if_pos h]

theorem round2_eval {q : ℚ} {n : ℤ} (hn : ⌊q * 100⌋ = n)
    (hlt : q * 100 - n < 1/2) : round2 q = (n : ℚ) / 100 := by
  rw [round2, roundHalfEven_of_floor hn hlt]

theorem round2_80 : round2 (80 : ℚ) = 80 := by
  rw [round2_eval (n := 8000) (by norm_num [Int.floor_eq_iff]) (by norm_num)]
  norm_num

theorem fmt1_80 : fmt1 (80 : ℚ) = "80.0" := by
  unfold fmt1
  have h : roundHalfEven (|(80 : ℚ)| * 10) = 800 := by
    rw [roundHalfEven_of_floor (n := 800)] <;>
      norm_num [Int.floor_eq_iff, abs_of_nonneg]
  rw [h]
  norm_num
  rfl

/-! Claim theorems. -/

/-- C1: For every aggregated period row whose allowance is present (a
truthy, hence nonzero, free_tier_limit), the classification assigns
severity by evaluating thresholds high to low with inclusive lower
boundaries: critical when the usage percentage is at least 90, otherwise
warning when at least 75, otherwise info when at least 50, otherwise ok;
in particular a percentage of 50.0 maps to info, 74.999 to info, 75.0 to
warning, 89.999 to warning, and 90.0 to critical. -/
theorem severity_thresholds :
    (∀ (r : AggRow) (l : ℚ), r.free_tier_limit = some l → l ≠ 0 →
      ∃ s : StatusRow, classifyRow r = Except.ok s ∧
        s.alert_level =
          (if 90 ≤ r.total_usage / l * 100 then "critical"
           else if 75 ≤ r.total_usage / l * 100 then "warning"
           else if 50 ≤ r.total_usage / l * 100 then "info"
           else "ok"))
    ∧ levelOf (mkAggRow 50 (some 100)) = Except.ok "info"
    ∧ levelOf (mkAggRow 74999 (some 100000)) = Except.ok "info"
    ∧ levelOf (mkAggRow 75 (some 100)) = Except.ok "warning"
    ∧ levelOf (mkAggRow 89999 (some 100000)) = Except.ok "warning"
    ∧ levelOf (mkAggRow 90 (some 100)) = Except.ok "critical" := by
  refine ⟨fun r l h h0 => ⟨_, classifyRow_some h h0, rfl⟩, ?_, ?_, ?_, ?_, ?_⟩ <;>
    · rw [levelOf, classifyRow_some rfl (by norm_num)]
      norm_num [mkAggRow, Except.map]

/-- C1 witness: scenario A, usage 600 of 750 gives 80 percent and the
warning level. -/
theorem severity_thresholds_witness :
    levelOf (mkAggRow 600 (some 750)) = Except.ok "warning" := by
  obtain ⟨s, hs, hl⟩ :=
    severity_thresholds.1 (mkAggRow 600 (some 750)) 750 rfl (by norm_num)
  rw [levelOf, hs]
  simp only [Except.map, hl]
  norm_num [mkAggRow]

/-- C2 counterexample: the claim says the classification stores the exact
quotient with no rounding, but check_free_tier_usage stores
round(percentage, 2) (database.py line 209): with totalUsage 1 and
allowance 3 the stored percentage is 33.33, not the exact 100/3. -/
theorem usage_percentage_not_exact :
    (classifyRow (mkAggRow 1 (some 3))).map (fun s => s.usage_percentage)
        = Except.ok (some (3333/100))
      ∧ (3333/100 : ℚ) ≠ 1 / 3 * 100 := by
  constructor
  · rw [classifyRow_some (l := 3) rfl (by norm_num)]
    simp only [Except.map, mkAggRow]
    rw [round2_eval (n := 3333) (by norm_num [Int.floor_eq_iff]) (by norm_num)]
    norm_num
  · norm_num

/-- C2 amended: for every aggregated period row with a truthy allowance,
the classification returns remaining = max(0, allowance - totalUsage)
exactly, and stores usagePercentage = totalUsage / allowance * 100 rounded
half-to-even to two decimal places, not the exact quotient. -/
theorem remaining_and_rounded_percentage :
    ∀ (r : AggRow) (l : ℚ), r.free_tier_limit = some l → l ≠ 0 →
      ∃ s : StatusRow, classifyRow r = Except.ok s ∧
        s.remaining = Remaining.value (max 0 (l - r.total_usage)) ∧
        s.usage_percentage = some (round2 (r.total_usage / l * 100)) :=
  fun _ _ h h0 => ⟨_, classifyRow_some h h0, rfl, rfl⟩

/-- C2 witness: scenario A, usage 600 of 750 gives remaining 150 and a
stored percentage of 80. -/
theorem remaining_and_rounded_percentage_witness :
    (classifyRow (mkAggRow 600 (some 750))).map
        (fun s => (s.usage_percentage, s.remaining))
      = Except.ok (some 80, Remaining.value 150) := by
  obtain ⟨s, hs, hr, hp⟩ :=
    remaining_and_rounded_percentage (mkAggRow 600 (some 750)) 750 rfl
      (by norm_num)
  rw [hs]
  simp only [Except.map, hr, hp, mkAggRow]
  have e : (600 : ℚ) / 750 * 100 = 80 := by norm_num
  rw [e, round2_80]
  norm_num

/-- C3 counterexample: the claim says a row with no matching quota gets
usagePercentage = null, but check_free_tier_usage stores the number 0
(database.py line 222): the stored value is some 0, not none. -/
theorem null_percentage_refuted :
    (classifyRow (mkAggRow 5 none)).map (fun s => s.usage_percentage)
        = Except.ok (some 0)
      ∧ some (0 : ℚ) ≠ (none : Option ℚ) := by
  constructor
  · rw [classifyRow_falsy (by rfl)]
    simp [Except.map]
  · simp

/-- C3 amended: for every aggregated period row whose (resource, subMetric)
has no matching quota definition, classification returns usagePercentage =
0 (a number, not null), remaining = the unlimited sentinel, and severity =
unknown, and never throws. -/
theorem no_quota_unknown :
    ∀ (r : AggRow), r.free_tier_limit = none →
      ∃ s : StatusRow, classifyRow r = Except.ok s ∧
        s.usage_percentage = some 0 ∧ s.remaining = Remaining.unlimited ∧
        s.alert_level = "unknown" :=
  fun r h => ⟨_, classifyRow_falsy (by rw [h]; rfl), rfl, rfl, rfl⟩

/-- C3 witness: a concrete row with no quota definition classifies to the
unknown severity with percentage 0 and the unlimited sentinel. -/
theorem no_quota_unknown_witness :
    (classifyRow (mkAggRow 5 none)).map
        (fun s => (s.usage_percentage, s.remaining, s.alert_level))
      = Except.ok (some 0, Remaining.unlimited, "unknown") := by
  obtain ⟨s, hs, h1, h2, h3⟩ := no_quota_unknown (mkAggRow 5 none) rfl
  rw [hs]
  simp [Except.map, h1, h2, h3]

/-- C10: for every aggregated period row whose stored allowance value is
exactly 0, the classification treats it like an absent allowance (severity
unknown, remaining unlimited, percentage 0) instead of dividing by the zero
allowance, and the usage check never throws for any stored allowance
value. -/
theorem zero_allowance_safe :
    (∀ (r : AggRow), r.free_tier_limit = some 0 →
      ∃ s : StatusRow, classifyRow r = Except.ok s ∧
        s.usage_percentage = some 0 ∧ s.remaining = Remaining.unlimited ∧
        s.alert_level = "unknown")
    ∧ (∀ (r : AggRow), ∃ s : StatusRow, classifyRow r = Except.ok s) := by
  constructor
  · intro r h
    exact ⟨_, classifyRow_falsy (by rw [h]; rfl), rfl, rfl, rfl⟩
  · intro r
    by_cases h : truthyQ r.free_tier_limit
    · obtain ⟨l, hl, h0⟩ := truthyQ_eq_true.mp h
      exact ⟨_, classifyRow_some hl h0⟩
    · exact ⟨_, classifyRow_falsy (by simpa using h)⟩

/-- C10 witness: a concrete row whose stored allowance is 0 classifies to
the unknown severity without any division error. -/
theorem zero_allowance_safe_witness :
    (classifyRow (mkAggRow 5 (some 0))).map
        (fun s => (s.usage_percentage, s.remaining, s.alert_level))
      = Except.ok (some 0, Remaining.unlimited, "unknown") := by
  obtain ⟨s, hs, h1, h2, h3⟩ := zero_allowance_safe.1 (mkAggRow 5 (some 0)) rfl
  rw [hs]
  simp [Except.map, h1, h2, h3]

theorem insertOne_some {reg : Registry} {st : Ledger} {r : UsageRecord}
    {d s ut : String} (hd : r.date = some d) (hs : r.service = some s)
    (hu : r.usage_type = some ut) :
    insertOne reg st r = Except.ok (fun k =>
      if k = (d, s, ut) then some (storedOf reg r s ut) else st k) := by
  simp [insertOne, hd, hs, hu]

/-- C4: the ledger upsert is idempotent and has replace semantics.
Re-inserting a record into the state it produced leaves that state
unchanged, and inserting two records with the same (date, service,
usage_type) identity key in one batch yields the same state as inserting
only the second: the first write is fully overwritten, never summed. -/
theorem upsert_idem_replace :
    (∀ (reg : Registry) (rec : UsageRecord) (st st1 : Ledger),
      insert_usage_data reg [rec] st = Except.ok st1 →
      insert_usage_data reg [rec] st1 = Except.ok st1)
    ∧ (∀ (reg : Registry) (r1 r2 : UsageRecord) (st : Ledger),
      r1.date = r2.date → r1.service = r2.service →
      r1.usage_type = r2.usage_type →
      insert_usage_data reg [r1, r2] st = insert_usage_data reg [r2] st) := by
  constructor
  · intro reg rec st st1 h
    rcases hd : rec.date with _ | d
    · rw [insert_usage_data] at h
      simp [List.foldlM, insertOne, hd] at h
    · rcases hs : rec.service with _ | s
      · rw [insert_usage_data] at h
        simp [List.foldlM, insertOne, hd, hs] at h
      · rcases hu : rec.usage_type with _ | ut
        · rw [insert_usage_data] at h
          simp [List.foldlM, insertOne, hd, hs, hu] at h
        · rw [insert_usage_data, List.foldlM] at h
          simp only [insertOne_some hd hs hu, List.foldlM, exc_bind_ok,
            exc_pure, Except.ok.injEq] at h
          rw [insert_usage_data, List.foldlM]
          simp only [insertOne_some hd hs hu, List.foldlM, exc_bind_ok,
            exc_pure, Except.ok.injEq]
          funext k
          by_cases hk : k = (d, s, ut)
          · rw [← h]
            simp [hk]
          · rw [← h]
            simp [hk]
  · intro reg r1 r2 st h1 h2 h3
    rcases hd : r2.date with _ | d
    · have hd1 : r1.date = none := by rw [h1, hd]
      simp [insert_usage_data, List.foldlM, insertOne, hd, hd1, exc_bind_error]
    · rcases hs : r2.service with _ | s
      · have hs1 : r1.service = none := by rw [h2, hs]
        have hd1 : r1.date = some d := by rw [h1, hd]
        simp [insert_usage_data, List.foldlM, insertOne, hd, hd1, hs, hs1, exc_bind_error]
      · rcases hu : r2.usage_type with _ | ut
        · have hu1 : r1.usage_type = none := by rw [h3, hu]
          have hd1 : r1.date = some d := by rw [h1, hd]
          have hs1 : r1.service = some s := by rw [h2, hs]
          simp [insert_usage_data, List.foldlM, insertOne, hd, hd1, hs, hs1,
            hu, hu1, exc_bind_error]
        · have hd1 : r1.date = some d := by rw [h1, hd]
          have hs1 : r1.service = some s := by rw [h2, hs]
          have hu1 : r1.usage_type = some ut := by rw [h3, hu]
          rw [insert_usage_data, insert_usage_data, List.foldlM]
          simp only [insertOne_some hd1 hs1 hu1, List.foldlM, exc_bind_ok,
            insertOne_some hd hs hu, exc_pure, Except.ok.injEq]
          funext k
          by_cases hk : k = (d, s, ut) <;> simp [hk]

/-- C4 witness: re-inserting the sample record leaves the sample state
unchanged, and a batch writing two amounts under one key equals writing
only the second, whose stored amount is 30 (the replacement), not 54 (a
sum). -/
theorem upsert_idem_replace_witness :
    insert_usage_data sampleReg [recA] sampleSt1 = Except.ok sampleSt1
    ∧ insert_usage_data sampleReg [recA, recA2] emptyLedger
        = insert_usage_data sampleReg [recA2] emptyLedger
    ∧ (insert_usage_data sampleReg [recA, recA2] emptyLedger).map
        (fun st => (st ("2024-01-15",
          "Amazon Elastic Compute Cloud - Compute", "t2.micro")).map
            (fun v => v.usage_amount))
      = Except.ok (some 30) := by
  have hfirst : insert_usage_data sampleReg [recA] emptyLedger
      = Except.ok sampleSt1 := by
    rw [insert_usage_data, List.foldlM]
    simp only [insertOne_some (r := recA) rfl rfl rfl, List.foldlM,
      exc_bind_ok, exc_pure]
    rfl
  refine ⟨upsert_idem_replace.1 sampleReg recA emptyLedger sampleSt1 hfirst,
    upsert_idem_replace.2 sampleReg recA recA2 emptyLedger rfl rfl rfl, ?_⟩
  rw [upsert_idem_replace.2 sampleReg recA recA2 emptyLedger rfl rfl rfl]
  rw [insert_usage_data, List.foldlM]
  simp only [insertOne_some (r := recA2) rfl rfl rfl, List.foldlM,
    exc_bind_ok, exc_pure]
  rfl

/-- C9 counterexample: the claim says a record missing a required field is
rejected with a validation error before any write, but insert_usage_data
silently defaults a missing usage_amount to 0.0 (database.py line 163): the
record is written with amount 0, and the batch succeeds. -/
theorem missing_amount_written :
    (insert_usage_data [] [recNoAmount] emptyLedger).map
        (fun st => (st ("2024-01-16", "Amazon Simple Queue Service",
          "Requests")).map (fun v => v.usage_amount))
      = Except.ok (some 0) := by
  rw [insert_usage_data, List.foldlM]
  simp only [insertOne_some (r := recNoAmount) rfl rfl rfl, List.foldlM,
    exc_bind_ok, exc_pure]
  rfl

/-- C9 amended: the upsert performs no validation of its own.  A record
missing date, resource or sub-metric violates the NOT NULL constraint: the
batch raises IntegrityError, the remaining records are not processed, and
the transaction rolls back, so there is no per-record atomicity.  A record
missing amount is not rejected at all: the amount silently defaults to 0.0
and is written. -/
theorem upsert_no_validation :
    (∀ (reg : Registry) (st : Ledger) (r : UsageRecord)
        (rest : List UsageRecord),
      r.date = none ∨ r.service = none ∨ r.usage_type = none →
      insert_usage_data reg (r :: rest) st = Except.error
        "IntegrityError: NOT NULL constraint failed: aws_free_tier_usage")
    ∧ (∀ (reg : Registry) (st : Ledger) (r : UsageRecord) (d s ut : String),
      r.date = some d → r.service = some s → r.usage_type = some ut →
      r.usage_amount = none →
      ∃ st1, insert_usage_data reg [r] st = Except.ok st1 ∧
        (st1 (d, s, ut)).map (fun v => v.usage_amount) = some 0) := by
  constructor
  · intro reg st r rest hmiss
    rcases hmiss with h | h | h
    · simp [insert_usage_data, List.foldlM, insertOne, h, exc_bind_error]
    · rcases hd : r.date with _ | d
      · simp [insert_usage_data, List.foldlM, insertOne, hd, exc_bind_error]
      · simp [insert_usage_data, List.foldlM, insertOne, hd, h, exc_bind_error]
    · rcases hd : r.date with _ | d
      · simp [insert_usage_data, List.foldlM, insertOne, hd, exc_bind_error]
      · rcases hs : r.service with _ | s
        · simp [insert_usage_data, List.foldlM, insertOne, hd, hs, exc_bind_error]
        · simp [insert_usage_data, List.foldlM, insertOne, hd, hs, h, exc_bind_error]
  · intro reg st r d s ut hd hs hu ha
    refine ⟨fun k => if k = (d, s, ut) then some (storedOf reg r s ut)
      else st k, ?_, ?_⟩
    · rw [insert_usage_data, List.foldlM]
      simp only [insertOne_some hd hs hu, List.foldlM, exc_bind_ok, exc_pure]
    · simp [storedOf, ha]

/-- C9 witness: a batch headed by a record with no date fails whole with an
IntegrityError, and a record with no amount is written with amount 0. -/
theorem upsert_no_validation_witness :
    insert_usage_data [] [recNoDate, recA] emptyLedger = Except.error
      "IntegrityError: NOT NULL constraint failed: aws_free_tier_usage"
    ∧ (insert_usage_data sampleReg [recNoAmount] emptyLedger).map
        (fun st => (st ("2024-01-16", "Amazon Simple Queue Service",
          "Requests")).map (fun v => v.usage_amount))
      = Except.ok (some 0) := by
  constructor
  · exact upsert_no_validation.1 [] emptyLedger recNoDate [recA] (Or.inl rfl)
  · obtain ⟨st1, h1, h2⟩ := upsert_no_validation.2 sampleReg emptyLedger
      recNoAmount "2024-01-16" "Amazon Simple Queue Service" "Requests"
      rfl rfl rfl rfl
    rw [h1]
    simp [Except.map, h2]

theorem create_alert_ge {today sv ut : String} {u l : ℚ} (h0 : l ≠ 0)
    (h75 : 75 ≤ u / l * 100) :
    create_free_tier_alert today sv ut u l = Except.ok (some
      { service := sv
        usage_type := ut
        current_usage := u
        limit_value := l
        usage_percentage := u / l * 100
        alert_level := if 90 ≤ u / l * 100 then "critical" else "warning"
        message := (if 90 ≤ u / l * 100 then "CRITICAL: " else "WARNING: ")
          ++ sv ++ " " ++ ut ++ " usage at " ++ fmt1 (u / l * 100)
          ++ "% of free tier limit"
        date := today }) := by
  rw [create_free_tier_alert, pydiv, if_neg h0, exc_bind_ok]
  by_cases h9 : 90 ≤ u / l * 100
  · simp [h9]
  · simp [h9, h75]

theorem create_alert_lt {today sv ut : String} {u l : ℚ} (h0 : l ≠ 0)
    (hlt : u / l * 100 < 75) :
    create_free_tier_alert today sv ut u l = Except.ok none := by
  rw [create_free_tier_alert, pydiv, if_neg h0, exc_bind_ok]
  rw [if_neg (by linarith), if_neg (by linarith)]

/-- C5: the alert generator persists an alert row for a (resource,
subMetric) standing if and only if its allowance is present (truthy) and
the usage percentage is at least 75; the persisted row has severity
critical when the percentage is at least 90 and warning when it is in
[75, 90), with a message embedding the resource, the sub-metric and the
percentage formatted to one decimal place; no alert row is ever created
for a standing below 75 percent or with an absent or zero allowance. -/
theorem alerts_iff :
    (∀ (today : String) (r : AggRow),
      r.free_tier_limit = none ∨ r.free_tier_limit = some 0 →
      alert_pipeline_row today r = Except.ok none)
    ∧ (∀ (today : String) (r : AggRow) (l : ℚ), r.free_tier_limit = some l →
      l ≠ 0 →
      (75 ≤ r.total_usage / l * 100 →
        alert_pipeline_row today r = Except.ok (some
          { service := r.service
            usage_type := r.usage_type
            current_usage := r.total_usage
            limit_value := l
            usage_percentage := r.total_usage / l * 100
            alert_level :=
              if 90 ≤ r.total_usage / l * 100 then "critical" else "warning"
            message :=
              (if 90 ≤ r.total_usage / l * 100 then "CRITICAL: "
                else "WARNING: ")
              ++ r.service ++ " " ++ r.usage_type ++ " usage at "
              ++ fmt1 (r.total_usage / l * 100) ++ "% of free tier limit"
            date := today }))
      ∧ (r.total_usage / l * 100 < 75 →
        alert_pipeline_row today r = Except.ok none)) := by
  constructor
  · intro today r h
    have hf : truthyQ r.free_tier_limit = false := by
      rcases h with h | h <;> simp [h, truthyQ]
    rw [alert_pipeline_row, classifyRow_falsy hf, exc_bind_ok, check_alert_row]
    simp [hf]
  · intro today r l h h0
    have hc := classifyRow_some h h0
    have htr : truthyQ r.free_tier_limit = true := truthyQ_eq_true.mpr ⟨l, h, h0⟩
    have htr2 : truthyQ (some l) = true := by rw [← h]; exact htr
    constructor
    · intro h75
      have h75z : ((75 : ℤ) : ℚ) ≤ r.total_usage / l * 100 := by
        exact_mod_cast h75
      have h75r : (75 : ℚ) ≤ round2 (r.total_usage / l * 100) := by
        have := le_round2 h75z
        exact_mod_cast this
      rw [alert_pipeline_row, hc, exc_bind_ok, check_alert_row]
      simp only [htr, htr2, if_true, h, Option.getD_some]
      by_cases h9r : 90 ≤ round2 (r.total_usage / l * 100)
      · rw [if_pos h9r, create_alert_ge h0 h75]
      · rw [if_neg h9r, if_pos h75r, create_alert_ge h0 h75]
    · intro hlt
      rw [alert_pipeline_row, hc, exc_bind_ok, check_alert_row]
      simp only [htr, htr2, if_true, h, Option.getD_some]
      by_cases h9r : 90 ≤ round2 (r.total_usage / l * 100)
      · rw [if_pos h9r, create_alert_lt h0 hlt]
      · rw [if_neg h9r]
        by_cases h75r : 75 ≤ round2 (r.total_usage / l * 100)
        · rw [if_pos h75r, create_alert_lt h0 hlt]
        · rw [if_neg h75r]

/-- C5 witness: scenario A, usage 600 of 750 of the EC2 quota persists one
warning alert whose message shows 80.0 percent. -/
theorem alerts_iff_witness :
    alert_pipeline_row "2026-10-12" (mkAggRow 600 (some 750)) = Except.ok
      (some
        { service := "Amazon Elastic Compute Cloud - Compute"
          usage_type := "t2.micro"
          current_usage := 600
          limit_value := 750
          usage_percentage := 80
          alert_level := "warning"
          message := "WARNING: Amazon Elastic Compute Cloud - Compute t2.micro usage at 80.0% of free tier limit"
          date := "2026-10-12" }) := by
  have h := (alerts_iff.2 "2026-10-12" (mkAggRow 600 (some 750)) 750 rfl
    (by norm_num)).1 (by norm_num [mkAggRow])
  rw [h]
  have e : (mkAggRow 600 (some 750)).total_usage / 750 * 100 = 80 := by
    norm_num [mkAggRow]
  rw [e, if_neg (by norm_num : ¬ ((90:ℚ) ≤ 80)), if_neg
    (by norm_num : ¬ ((90:ℚ) ≤ 80)), fmt1_80]
  rfl

theorem predict_not_breach {sv ut : String} {r : PredRow} {l : ℚ} {d : ℕ}
    (h : r.free_tier_limit = some l) (h0 : l ≠ 0) (hd : ((d : ℕ) : ℚ) ≠ 0)
    (hle : r.month_to_date_usage / (d : ℚ) * 31 ≤ l) :
    predict_free_tier_breach sv ut (some r) d = Except.ok none := by
  have htr2 : truthyQ (some l) = true := by simp [truthyQ, h0]
  simp only [predict_free_tier_breach, h, Option.getD_some, pydiv, htr2,
    eq_self_iff_true, if_true]
  rw [if_neg hd, exc_bind_ok, if_neg (not_lt.mpr hle)]

theorem predict_breach {sv ut : String} {r : PredRow} {l : ℚ} {d : ℕ}
    (h : r.free_tier_limit = some l) (h0 : l ≠ 0) (hd : ((d : ℕ) : ℚ) ≠ 0)
    (hdaily : r.month_to_date_usage / (d : ℚ) ≠ 0)
    (hgt : l < r.month_to_date_usage / (d : ℚ) * 31) :
    predict_free_tier_breach sv ut (some r) d = Except.ok (some
      { service := sv
        usage_type := ut
        current_usage := r.month_to_date_usage
        projected_usage := r.month_to_date_usage / (d : ℚ) * 31
        limit := l
        unit := r.usage_unit
        daily_average := r.month_to_date_usage / (d : ℚ)
        days_to_breach := max 1 (pytrunc ((l - r.month_to_date_usage) /
          (r.month_to_date_usage / (d : ℚ))))
        projected_breach_day := min 31 ((d : ℤ) + max 1 (pytrunc
          ((l - r.month_to_date_usage) / (r.month_to_date_usage / (d : ℚ)))))
        confidence := if 7 ≤ d then "medium" else "low" }) := by
  have htr2 : truthyQ (some l) = true := by simp [truthyQ, h0]
  simp only [predict_free_tier_breach, h, Option.getD_some, pydiv, htr2,
    eq_self_iff_true, if_true]
  rw [if_neg hd, exc_bind_ok, if_pos hgt, if_neg hdaily, exc_bind_ok]

/-- C6 amended: for every (resource, subMetric) with a quota definition
(truthy limit) and month-to-date usage data, when the projected usage does
not exceed the allowance the breach predictor returns an absent result
(None), exactly as when no data exists; it does not return a present
prediction with a null daysToBreach, so callers cannot distinguish the two
cases. -/
theorem predict_on_track_absent :
    ∀ (sv ut : String) (r : PredRow) (l : ℚ) (d : ℕ),
      r.free_tier_limit = some l → l ≠ 0 → 1 ≤ d →
      r.month_to_date_usage / (d : ℚ) * 31 ≤ l →
      predict_free_tier_breach sv ut (some r) d = Except.ok none := by
  intro sv ut r l d h h0 hd hle
  exact predict_not_breach h h0 (Nat.cast_ne_zero.mpr (by omega)) hle

/-- C6 counterexample: with a quota of 1000 and month-to-date usage 31 at
day 31 the projection 31 does not exceed the allowance, and the predictor
returns the absent result None, not a present prediction record with a
null daysToBreach as the claim requires. -/
theorem predict_on_track_ce :
    predict_free_tier_breach "Amazon Elastic Compute Cloud - Compute"
        "t2.micro" (some { month_to_date_usage := 31
                           free_tier_limit := some 1000
                           usage_unit := "hours" }) 31
      = Except.ok none
    ∧ (31 : ℚ) / 31 * 31 ≤ 1000 := by
  constructor
  · exact predict_not_breach rfl (by norm_num) (by norm_num)
      (by push_cast; norm_num)
  · norm_num

/-- C6 witness: a concrete on-track standing at day 10 with usage 10 of
600 yields the absent result. -/
theorem predict_on_track_absent_witness :
    predict_free_tier_breach "AWS Lambda" "Requests"
        (some { month_to_date_usage := 10
                free_tier_limit := some 600
                usage_unit := "requests" }) 10
      = Except.ok none :=
  predict_on_track_absent "AWS Lambda" "Requests"
    ⟨10, some 600, "requests"⟩ 600 10 rfl (by norm_num) (by norm_num)
    (by push_cast; norm_num)

/-- C7 amended: for every breach prediction with a truthy (positive) quota
and a day of month at least 1, the predictor computes dailyAverage =
monthToDateUsage / asOfDay and projectedUsage = dailyAverage * 31 (the
period length is the hard-coded constant 31, not a daysInPeriod
parameter); when projectedUsage exceeds the allowance it returns
daysToBreach = max(1, trunc((allowance - monthToDateUsage) /
dailyAverage)) using int() truncation rather than a ceiling, and
confidence = medium when asOfDay is at least 7, else low; in particular
for asOfDay = 10, monthToDateUsage = 300, allowance = 750 it returns
dailyAverage = 30, projectedUsage = 930 (not 900), daysToBreach = 15,
confidence = medium. -/
theorem predict_breach_formula :
    ∀ (sv ut : String) (r : PredRow) (l : ℚ) (d : ℕ),
      r.free_tier_limit = some l → 0 < l → 1 ≤ d →
      l < r.month_to_date_usage / (d : ℚ) * 31 →
      predict_free_tier_breach sv ut (some r) d = Except.ok (some
        { service := sv
          usage_type := ut
          current_usage := r.month_to_date_usage
          projected_usage := r.month_to_date_usage / (d : ℚ) * 31
          limit := l
          unit := r.usage_unit
          daily_average := r.month_to_date_usage / (d : ℚ)
          days_to_breach := max 1 (pytrunc ((l - r.month_to_date_usage) /
            (r.month_to_date_usage / (d : ℚ))))
          projected_breach_day := min 31 ((d : ℤ) + max 1 (pytrunc
            ((l - r.month_to_date_usage) /
              (r.month_to_date_usage / (d : ℚ)))))
          confidence := if 7 ≤ d then "medium" else "low" }) := by
  intro sv ut r l d h hl hd hgt
  have hdaily : 0 < r.month_to_date_usage / (d : ℚ) := by linarith
  exact predict_breach h (by linarith) (Nat.cast_ne_zero.mpr (by omega))
    (by linarith) hgt

/-- C7 counterexample: for the scenario asOfDay = 10, monthToDateUsage =
300, allowance = 750 the code projects dailyAverage * 31 = 930, not the
900 the claim (with daysInPeriod = 30) requires. -/
theorem predict_scenario_ce :
    (predict_free_tier_breach "Amazon Elastic Compute Cloud - Compute"
        "t2.micro" (some { month_to_date_usage := 300
                           free_tier_limit := some 750
                           usage_unit := "hours" }) 10).map
        (fun o => o.map (fun p => p.projected_usage))
      = Except.ok (some 930)
    ∧ (930 : ℚ) ≠ 900 := by
  constructor
  · rw [predict_breach rfl (by norm_num) (by norm_num)
      (by push_cast; norm_num) (by push_cast; norm_num)]
    simp [Except.map]
    norm_num
  · norm_num

/-- C7 witness: the scenario evaluated in full: dailyAverage 30, projected
usage 930, daysToBreach 15, breach day 25, confidence medium. -/
theorem predict_breach_formula_witness :
    predict_free_tier_breach "Amazon Elastic Compute Cloud - Compute"
        "t2.micro" (some { month_to_date_usage := 300
                           free_tier_limit := some 750
                           usage_unit := "hours" }) 10
      = Except.ok (some
        { service := "Amazon Elastic Compute Cloud - Compute"
          usage_type := "t2.micro"
          current_usage := 300
          projected_usage := 930
          limit := 750
          unit := "hours"
          daily_average := 30
          days_to_breach := 15
          projected_breach_day := 25
          confidence := "medium" }) := by
  rw [predict_breach_formula "Amazon Elastic Compute Cloud - Compute"
    "t2.micro" ⟨300, some 750, "hours"⟩ 750 10 rfl (by norm_num)
    (by norm_num) (by push_cast; norm_num)]
  have e : ((750 : ℚ) - 300) / ((300 : ℚ) / ((10 : ℕ) : ℚ)) = 15 := by
    push_cast
    norm_num
  simp only [BreachPrediction.mk.injEq]
  norm_num [e, pytrunc]

/-- C8 counterexample: the claim says a zero divisor is guarded and
reported as a ValidationError, but create_free_tier_alert divides by the
limit with no guard (database.py line 233): a zero limit raises an
uncaught ZeroDivisionError. -/
theorem zero_allowance_alert_crash :
    create_free_tier_alert "2026-10-12" "Amazon Simple Storage Service"
        "Standard Storage" 10 0
      = Except.error "ZeroDivisionError: float division by zero" := by
  simp [create_free_tier_alert, pydiv, exc_bind_error]

/-- C8 amended: the divisions are not guarded and there is no
ValidationError anywhere in the code.  A zero allowance passed to alert
creation raises an uncaught ZeroDivisionError; the breach predictor
divides by the current day of month, which is at least 1 at runtime, and
for any day at least 1 and a nonnegative stored limit the predictor never
raises a division error. -/
theorem division_unguarded :
    (∀ (today sv ut : String) (c : ℚ),
      create_free_tier_alert today sv ut c 0 =
        Except.error "ZeroDivisionError: float division by zero")
    ∧ (∀ (sv ut : String) (r : PredRow) (d : ℕ), 1 ≤ d →
      (∀ l, r.free_tier_limit = some l → 0 ≤ l) →
      ∀ e, predict_free_tier_breach sv ut (some r) d ≠ Except.error e) := by
  constructor
  · intro today sv ut c
    simp [create_free_tier_alert, pydiv, exc_bind_error]
  · intro sv ut r d hd hnn e
    have hdq : ((d : ℕ) : ℚ) ≠ 0 := Nat.cast_ne_zero.mpr (by omega)
    rcases hfl : r.free_tier_limit with _ | l
    · simp [predict_free_tier_breach, truthyQ, hfl]
    · by_cases h0 : l = 0
      · simp [predict_free_tier_breach, truthyQ, hfl, h0]
      · have hl : 0 < l := lt_of_le_of_ne (hnn l hfl) (Ne.symm h0)
        by_cases hgt : l < r.month_to_date_usage / (d : ℚ) * 31
        · have hdaily : r.month_to_date_usage / (d : ℚ) ≠ 0 := by
            intro hz
            rw [hz] at hgt
            simp at hgt
            linarith
          rw [predict_breach hfl h0 hdq hdaily hgt]
          simp
        · rw [predict_not_breach hfl h0 hdq (not_lt.mp hgt)]
          simp

/-- C8 witness: a zero limit crashes alert creation with ZeroDivisionError
while the predictor at day 10 with a positive limit raises no division
error. -/
theorem division_unguarded_witness :
    create_free_tier_alert "2026-10-12" "AWS Lambda" "Requests" 5 0
        = Except.error "ZeroDivisionError: float division by zero"
    ∧ predict_free_tier_breach "AWS Lambda" "Requests"
        (some { month_to_date_usage := 300
                free_tier_limit := some 750
                usage_unit := "requests" }) 10
      ≠ Except.error "ZeroDivisionError: float division by zero" := by
  constructor
  · exact division_unguarded.1 "2026-10-12" "AWS Lambda" "Requests" 5
  · refine division_unguarded.2 "AWS Lambda" "Requests"
      { month_to_date_usage := 300, free_tier_limit := some 750,
        usage_unit := "requests" } 10 (by norm_num) ?_ _
    intro l hl
    have hel : l = 750 := by simpa using hl.symm
    rw [hel]
    norm_num

end FinOps
